import Mathlib

/-!
Verification of the crime-feed frontend (src/frontend/src/App.js,
src/frontend/src/components/CrimeCard.js).

The embedding models, faithfully to the JavaScript source:
  * the incident record shape consumed by the components;
  * the fetch lifecycle of App.js (status check, JSON decode, error field
    check, the setCrimes/setLoading state mutations of the promise chain);
  * the three-way render of App.js (loading / empty / list of cards);
  * the per-record card of CrimeCard.js (score, comment count, optional
    description via JavaScript truthiness).

JavaScript numbers of the OBJECTID field are modelled as Int, with the
JavaScript remainder operator modelled by Int.tmod (truncated remainder,
which is what the JavaScript percent operator computes on integers).
The absent value (undefined) of a field is modelled by Option none.
-/

namespace CrimeApp

/-- One incident record as consumed by App.js and CrimeCard.js.
DESCRIPTION is optional: none models an absent field. -/
structure Crime where
  OBJECTID : Int
  Incident_Type : String
  Occurred_Datetime : String
  Block_Address : String
  Case_Number : String
  DESCRIPTION : Option String
  deriving DecidableEq

/-- The decoded JSON envelope: an optional error field and an optional
data field; none models an absent field (undefined in JavaScript). -/
structure Payload where
  error : Option String
  data : Option (List Crime)
  deriving DecidableEq

/-- An HTTP response as seen through the fetch API: the ok flag (status
in the 2xx range), the numeric status, and the decoded JSON body; a body
of none models a JSON decode failure of res.json(). -/
structure Response where
  ok : Bool
  status : Nat
  body : Option Payload
  deriving DecidableEq

/-- JavaScript truthiness of an optional string: undefined and the empty
string are falsy, every other string is truthy. -/
def truthyStr : Option String → Bool
  | none => false
  | some s => decide (s ≠ "")

/-- The error thrown inside the promise chain of App.js: the HTTP branch
throws the message HTTP followed by the status, the application branch
throws json.error, and a failing res.json() rejects with a decode error. -/
inductive FetchError where
  | http (status : Nat)
  | app (msg : String)
  | decode
  deriving DecidableEq

/-- The message carried by the thrown error, as console.error logs it.
The decode message text is produced by the host JSON parser; no claim
depends on its exact text. -/
def FetchError.message : FetchError → String
  | FetchError.http s => "HTTP " ++ toString s
  | FetchError.app e => e
  | FetchError.decode => "JSON decode error"

/-- The outcome of the two then-callbacks of App.js: a non-ok status
throws before the body is ever read; an ok status decodes the body (a
decode failure rejects); a truthy json.error throws it; otherwise the
value json.data is produced (possibly absent). -/
def fetchOutcome (res : Response) : Except FetchError (Option (List Crime)) :=
  if res.ok = false then Except.error (FetchError.http res.status)
  else
    match res.body with
    | none => Except.error FetchError.decode
    | some json =>
      if truthyStr json.error then Except.error (FetchError.app (json.error.getD ""))
      else Except.ok json.data

/-- The error that App.js passes to console.error, when any. -/
def diagnostic (res : Response) : Option FetchError :=
  match fetchOutcome res with
  | Except.ok _ => none
  | Except.error e => some e

/-- The view state of App.js: the crimes value (none models undefined,
as when json.data is absent) and the loading flag. -/
structure AppState where
  crimes : Option (List Crime)
  loading : Bool
  deriving DecidableEq

/-- The state right after mount: useState([]) and useState(true). -/
def initialState : AppState := { crimes := some [], loading := true }

/-- One state mutation issued by the promise chain. -/
inductive Mutation where
  | setCrimes (v : Option (List Crime))
  | setLoading (b : Bool)
  deriving DecidableEq

/-- Applying one mutation to the view state. -/
def applyMutation (s : AppState) : Mutation → AppState
  | Mutation.setCrimes v => { s with crimes := v }
  | Mutation.setLoading b => { s with loading := b }

/-- Applying a sequence of mutations in order. -/
def applyEvents (s : AppState) (ms : List Mutation) : AppState :=
  ms.foldl applyMutation s

/-- The mutations issued when the fetch settles, in the order the promise
chain runs them: on success, setCrimes(json.data) in the then-callback;
on any failure, setCrimes([]) in the catch-callback; in both cases the
finally-callback then runs setLoading(false). -/
def settleEvents (res : Response) : List Mutation :=
  match fetchOutcome res with
  | Except.ok d => [Mutation.setCrimes d, Mutation.setLoading false]
  | Except.error _ => [Mutation.setCrimes (some []), Mutation.setLoading false]

/-- The view state after the fetch has settled. -/
def settle (res : Response) : AppState :=
  applyEvents initialState (settleEvents res)

/-- Recognizer for the setLoading mutation. -/
def isSetLoadingEvent : Mutation → Bool
  | Mutation.setLoading _ => true
  | _ => false

/-- The rendered card of CrimeCard.js, field by field: the key attribute,
the score span (OBJECTID remainder 100), the heading, the raw datetime
string handed to the host locale formatter, the address, the case label,
the conditionally rendered description, and the discuss counter
(OBJECTID remainder 5, plus one). -/
structure ItemView where
  key : Int
  score : Int
  title : String
  timestampInput : String
  location : String
  caseLabel : String
  description : Option String
  commentCount : Int
  deriving DecidableEq

/-- CrimeCard.js as a function from a record to its rendered card. The
description paragraph renders only when crime.DESCRIPTION is truthy. -/
def crimeCard (c : Crime) : ItemView :=
  { key := c.OBJECTID
  , score := Int.tmod c.OBJECTID 100
  , title := c.Incident_Type
  , timestampInput := c.Occurred_Datetime
  , location := c.Block_Address
  , caseLabel := "Case #" ++ c.Case_Number
  , description := if truthyStr c.DESCRIPTION then c.DESCRIPTION else none
  , commentCount := Int.tmod c.OBJECTID 5 + 1 }

/-- The three mutually exclusive outputs of the main render of App.js. -/
inductive RenderOutput where
  | loadingView
  | emptyView
  | cards (items : List ItemView)
  deriving DecidableEq

/-- The ternary render of App.js: loading wins; otherwise crimes.length
is read — on an undefined crimes value (none) that field access throws,
modelled as none; length zero gives the empty view; otherwise one card
per record, in order. -/
def renderMain (loading : Bool) (crimes : Option (List Crime)) : Option RenderOutput :=
  if loading then some RenderOutput.loadingView
  else
    match crimes with
    | none => none
    | some cs =>
      if cs.length = 0 then some RenderOutput.emptyView
      else some (RenderOutput.cards (cs.map crimeCard))

/-- The render as a function of the view state. -/
def renderState (s : AppState) : Option RenderOutput :=
  renderMain s.loading s.crimes

/-- Whether a character list begins with the pattern list. -/
def leadsWith : List Char → List Char → Bool
  | _, [] => true
  | [], _ :: _ => false
  | a :: as, b :: bs => a == b && leadsWith as bs

/-- Whether the pattern occurs contiguously inside the haystack. -/
def hasSub : List Char → List Char → Bool
  | [], pat => pat.isEmpty
  | a :: as, pat => leadsWith (a :: as) pat || hasSub as pat

/-- String containment, character-list based. -/
def containsStr (s pat : String) : Bool :=
  hasSub s.toList pat.toList

/-- The dependency array of the useEffect of App.js: the empty array. -/
def effectDeps : List Int := []

/-- React host semantics of useEffect: the effect runs at the render
where there is no previous dependency array (initial mount), and at a
later render exactly when the current array differs from the previous
one. -/
def runsEffect (prevDeps : Option (List Int)) : Bool :=
  match prevDeps with
  | none => true
  | some old => decide (old ≠ effectDeps)

/-- The fixed endpoint of the single GET request of App.js. -/
def endpoint : String := "/api/crimes"

/-- Number of times the effect body runs (one GET request each time)
over a run of n renders, carrying the previous dependency array. -/
def requestsAfterRenders : Option (List Int) → Nat → Nat
  | _, 0 => 0
  | prev, Nat.succ n =>
    (if runsEffect prev then 1 else 0) + requestsAfterRenders (some effectDeps) n

/-- Number of GET requests issued over a component lifetime of n renders,
the first being the initial mount. -/
def requestsIssued (n : Nat) : Nat :=
  requestsAfterRenders none n

/-- The Scenario A record of the spec. -/
def sampleCrime1 : Crime :=
  { OBJECTID := 1
  , Incident_Type := "Theft"
  , Occurred_Datetime := "2024-01-01T10:00:00Z"
  , Block_Address := "Block of Shattuck Ave"
  , Case_Number := "24-0001"
  , DESCRIPTION := none }

/-- A successful response with zero records. -/
def emptyOkResponse : Response :=
  { ok := true, status := 200, body := some { error := none, data := some [] } }

/-- The Scenario C response: status 500 with body error db down. -/
def res500 : Response :=
  { ok := false, status := 500, body := some { error := some "db down", data := none } }

end CrimeApp

namespace CrimeApp

/-- Helper: once the dependency array has been recorded, the effect of
App.js never runs again, the array being constant. -/
theorem requestsAfterRenders_same (n : Nat) :
    requestsAfterRenders (some effectDeps) n = 0 := by
  induction n with
  | zero => rfl
  | succ n ih => simpa [requestsAfterRenders, runsEffect, effectDeps] using ih

/-- C1: for a successful fetch whose payload holds N at least 1 records,
the settled render is exactly one card per record, in payload order, each
keyed by the record OBJECTID; with zero records the empty view renders;
with loading true the loading view renders; the three outputs are
pairwise distinct. -/
theorem C1_render_modes (res : Response) (p : Payload) (cs : List Crime)
    (hok : res.ok = true) (hb : res.body = some p) (herr : p.error = none)
    (hd : p.data = some cs) (hn : 1 ≤ cs.length) :
    settle res = { crimes := some cs, loading := false } ∧
    renderState (settle res) = some (RenderOutput.cards (cs.map crimeCard)) ∧
    (cs.map crimeCard).length = cs.length ∧
    (cs.map crimeCard).map ItemView.key = cs.map Crime.OBJECTID ∧
    renderMain false (some []) = some RenderOutput.emptyView ∧
    renderMain true (some cs) = some RenderOutput.loadingView ∧
    RenderOutput.cards (cs.map crimeCard) ≠ RenderOutput.emptyView ∧
    RenderOutput.cards (cs.map crimeCard) ≠ RenderOutput.loadingView ∧
    RenderOutput.emptyView ≠ RenderOutput.loadingView := by
  have hout : fetchOutcome res = Except.ok (some cs) := by
    simp [fetchOutcome, hok, hb, herr, truthyStr, hd]
  have hne : cs.length ≠ 0 := by omega
  have hsettle : settle res = { crimes := some cs, loading := false } := by
    simp [settle, settleEvents, hout, applyEvents, applyMutation, initialState]
  refine ⟨hsettle, ?_, by simp, ?_, rfl, rfl, by simp, by simp, by simp⟩
  · rw [hsettle]
    simp [renderState, renderMain, hne]
  · simp [List.map_map, crimeCard, Function.comp]

/-- C1 witness: the single Scenario A record. -/
theorem C1_witness :
    settle { ok := true, status := 200, body := some { error := none, data := some [sampleCrime1] } } = { crimes := some [sampleCrime1], loading := false } ∧
    renderState (settle { ok := true, status := 200, body := some { error := none, data := some [sampleCrime1] } }) = some (RenderOutput.cards ([sampleCrime1].map crimeCard)) ∧
    ([sampleCrime1].map crimeCard).length = [sampleCrime1].length ∧
    ([sampleCrime1].map crimeCard).map ItemView.key = [sampleCrime1].map Crime.OBJECTID ∧
    renderMain false (some []) = some RenderOutput.emptyView ∧
    renderMain true (some [sampleCrime1]) = some RenderOutput.loadingView ∧
    RenderOutput.cards ([sampleCrime1].map crimeCard) ≠ RenderOutput.emptyView ∧
    RenderOutput.cards ([sampleCrime1].map crimeCard) ≠ RenderOutput.loadingView ∧
    RenderOutput.emptyView ≠ RenderOutput.loadingView :=
  C1_render_modes _ _ [sampleCrime1] rfl rfl rfl rfl (by decide)

/-- C2: every failure outcome of the fetch (transport, application error,
decode error) settles to the same state as a successful empty response:
records empty, loading cleared. -/
theorem C2_failure_collapses (res : Response) (e : FetchError)
    (h : fetchOutcome res = Except.error e) :
    settle res = { crimes := some [], loading := false } ∧
    settle res = settle emptyOkResponse := by
  have h1 : settle res = { crimes := some [], loading := false } := by
    simp [settle, settleEvents, h, applyEvents, applyMutation, initialState]
  exact ⟨h1, h1⟩

/-- C2 witness: the status 500 response settles like the empty success. -/
theorem C2_witness :
    settle res500 = { crimes := some [], loading := false } ∧
    settle res500 = settle emptyOkResponse :=
  C2_failure_collapses res500 (FetchError.http 500) rfl

/-- C3 counterexample: on status 500 with body error db down, the code
throws on the status check before the body is read, so the logged
diagnostic is HTTP 500 and does not contain db down; the empty view does
render. -/
theorem C3_counterexample :
    diagnostic res500 = some (FetchError.http 500) ∧
    (FetchError.http 500).message = "HTTP 500" ∧
    containsStr (FetchError.http 500).message "db down" = false ∧
    renderState (settle res500) = some RenderOutput.emptyView := by
  refine ⟨rfl, rfl, by decide, rfl⟩

/-- C3 amended: a non-2xx response is treated as a transport failure
regardless of its body, the status check running before the body is
read: the empty view renders and the logged diagnostic is the HTTP
status message. -/
theorem C3_amended_transport (res : Response) (h : res.ok = false) :
    diagnostic res = some (FetchError.http res.status) ∧
    (FetchError.http res.status).message = "HTTP " ++ toString res.status ∧
    settle res = { crimes := some [], loading := false } ∧
    renderState (settle res) = some RenderOutput.emptyView := by
  have hout : fetchOutcome res = Except.error (FetchError.http res.status) := by
    simp [fetchOutcome, h]
  have hs : settle res = { crimes := some [], loading := false } := by
    simp [settle, settleEvents, hout, applyEvents, applyMutation, initialState]
  refine ⟨by simp [diagnostic, hout], rfl, hs, by rw [hs]; rfl⟩

/-- C3 amended witness: the Scenario C response at status 500. -/
theorem C3_amended_witness :
    diagnostic res500 = some (FetchError.http res500.status) ∧
    (FetchError.http res500.status).message = "HTTP " ++ toString res500.status ∧
    settle res500 = { crimes := some [], loading := false } ∧
    renderState (settle res500) = some RenderOutput.emptyView :=
  C3_amended_transport res500 rfl

/-- C4: loading is true at mount and still true after the first settle
mutation; the settle sequence carries exactly one setLoading event, it
is the final event, its value is false; after settlement loading is
false on every path. -/
theorem C4_loading_lifecycle (res : Response) :
    initialState.loading = true ∧
    (applyEvents initialState ((settleEvents res).take 1)).loading = true ∧
    (settleEvents res).filter isSetLoadingEvent = [Mutation.setLoading false] ∧
    (∃ x, settleEvents res = [Mutation.setCrimes x, Mutation.setLoading false]) ∧
    (settle res).loading = false := by
  obtain ⟨x, hx⟩ : ∃ x, settleEvents res = [Mutation.setCrimes x, Mutation.setLoading false] := by
    unfold settleEvents
    cases fetchOutcome res with
    | ok d => exact ⟨d, rfl⟩
    | error e => exact ⟨some [], rfl⟩
  refine ⟨rfl, ?_, ?_, ⟨x, hx⟩, ?_⟩
  · rw [hx]; rfl
  · rw [hx]; rfl
  · unfold settle; rw [hx]; rfl

/-- C5: the card counters are derived from the identifier: the score is
OBJECTID mod 100 and the discuss counter is OBJECTID mod 5 plus one; at
OBJECTID 1 they are 1 and 2. -/
theorem C5_placeholder_metrics (c : Crime) (h : 0 ≤ c.OBJECTID) :
    (crimeCard c).score = c.OBJECTID % 100 ∧
    (crimeCard c).commentCount = c.OBJECTID % 5 + 1 ∧
    (crimeCard sampleCrime1).score = 1 ∧
    (crimeCard sampleCrime1).commentCount = 2 := by
  refine ⟨?_, ?_, by decide, by decide⟩
  · exact Int.tmod_eq_emod h (by decide)
  · show Int.tmod c.OBJECTID 5 + 1 = c.OBJECTID % 5 + 1
    rw [Int.tmod_eq_emod h (by decide)]

/-- C5 witness: the Scenario A record with identifier 1. -/
theorem C5_witness :
    (crimeCard sampleCrime1).score = sampleCrime1.OBJECTID % 100 ∧
    (crimeCard sampleCrime1).commentCount = sampleCrime1.OBJECTID % 5 + 1 ∧
    (crimeCard sampleCrime1).score = 1 ∧
    (crimeCard sampleCrime1).commentCount = 2 :=
  C5_placeholder_metrics sampleCrime1 (by decide)

/-- C6: along every intermediate point of the settle mutation sequence,
the observable render equals either the pre-settlement output or the
post-settlement output: no interleaved partial render exists between the
records update and the loading update, the render gating on loading
first. -/
theorem C6_no_partial_render (res : Response) (k : Nat) :
    renderState (applyEvents initialState ((settleEvents res).take k)) = renderState initialState ∨
    renderState (applyEvents initialState ((settleEvents res).take k)) = renderState (settle res) := by
  obtain ⟨x, hx⟩ : ∃ x, settleEvents res = [Mutation.setCrimes x, Mutation.setLoading false] := by
    unfold settleEvents
    cases fetchOutcome res with
    | ok d => exact ⟨d, rfl⟩
    | error e => exact ⟨some [], rfl⟩
  rw [hx]
  match k with
  | 0 => exact Or.inl rfl
  | 1 => exact Or.inl rfl
  | Nat.succ (Nat.succ n) =>
    right
    unfold settle
    rw [hx]
    simp [List.take_succ_cons, List.take_nil]

/-- C7: over a lifetime of n renders, n at least 1, exactly one GET
request to the fixed endpoint is issued (at the initial mount), and none
before any render. -/
theorem C7_single_fetch (n : Nat) (h : 1 ≤ n) :
    requestsIssued n = 1 ∧ requestsIssued 0 = 0 ∧ endpoint = "/api/crimes" := by
  refine ⟨?_, rfl, rfl⟩
  match n, h with
  | Nat.succ m, _ =>
    show requestsAfterRenders none (Nat.succ m) = 1
    simp [requestsAfterRenders, runsEffect, requestsAfterRenders_same]

/-- C7 witness: one render issues exactly one request. -/
theorem C7_witness :
    requestsIssued 1 = 1 ∧ requestsIssued 0 = 0 ∧ endpoint = "/api/crimes" :=
  C7_single_fetch 1 (by decide)

/-- C8: the card description paragraph renders some s exactly when the
record description is present with that nonempty value, and renders
nothing exactly when the field is absent or empty. -/
theorem C8_description_iff (c : Crime) (s : String) :
    ((crimeCard c).description = some s ↔ (c.DESCRIPTION = some s ∧ s ≠ "")) ∧
    ((crimeCard c).description = none ↔ (c.DESCRIPTION = none ∨ c.DESCRIPTION = some "")) := by
  rcases hD : c.DESCRIPTION with _ | t
  · simp [crimeCard, truthyStr, hD]
  · rcases eq_or_ne t "" with ht | ht
    · subst ht
      simp only [crimeCard, truthyStr, hD]
      constructor
      · simp
        exact fun h => h.symm
      · simp
    · constructor
      · simp only [crimeCard, truthyStr, hD, ht, decide_eq_true_eq, if_pos ht]
        constructor
        · intro hts
          exact ⟨hts, by rw [Option.some.injEq] at hts; rw [hts] at ht; exact ht⟩
        · intro hts
          exact hts.1
      · simp [crimeCard, truthyStr, hD, ht]

/-- C9: the render is a pure function of the view state: two states with
equal loading and equal crimes render identically. -/
theorem C9_render_pure (s t : AppState) (h1 : s.loading = t.loading)
    (h2 : s.crimes = t.crimes) :
    renderState s = renderState t := by
  unfold renderState
  rw [h1, h2]

/-- C9 witness: the settled empty success state renders like the literal
state with the same fields. -/
theorem C9_witness :
    renderState (settle emptyOkResponse) = renderState { crimes := some [], loading := false } :=
  C9_render_pure (settle emptyOkResponse) { crimes := some [], loading := false } rfl rfl

/-- A 2xx response whose decoded body carries neither error nor data. -/
def resNoData : Response :=
  { ok := true, status := 200, body := some { error := none, data := none } }

/-- C10: a 2xx response whose decoded body has neither an error field nor
a data field assigns the absent data value to the records unvalidated,
and the subsequent length access of the render is undefined. -/
theorem C10_unguarded (res : Response) (p : Payload)
    (hok : res.ok = true) (hb : res.body = some p) (he : p.error = none)
    (hd : p.data = none) :
    settle res = { crimes := none, loading := false } ∧
    renderState (settle res) = none ∧
    renderMain false none = none := by
  have hout : fetchOutcome res = Except.ok none := by
    simp [fetchOutcome, hok, hb, he, hd, truthyStr]
  have hs : settle res = { crimes := none, loading := false } := by
    simp [settle, settleEvents, hout, applyEvents, applyMutation, initialState]
  exact ⟨hs, by rw [hs]; rfl, rfl⟩

/-- C10 witness: the concrete empty-body 2xx response. -/
theorem C10_witness :
    settle resNoData = { crimes := none, loading := false } ∧
    renderState (settle resNoData) = none ∧
    renderMain false none = none :=
  C10_unguarded resNoData { error := none, data := none } rfl rfl rfl rfl

end CrimeApp
